import Mathlib

/-!
Shallow embedding of the FitRate data layer (Supabase passthrough services)
and proofs about its rating, follow, comment and notification operations.

The database is modelled as lists of rows; each service function becomes a
pure state transformer `DB → ... → DB × result`.  Row ids generated by
`crypto.randomUUID()` (or by the store) and `new Date().toISOString()`
timestamps are passed in as explicit parameters.  Failures of the backing
store itself are outside the model: every modelled run is a run in which the
store's own calls succeed, so the only failure paths are the ones the
service code takes deliberately.
-/

namespace FitRate

/-- Row of the `ratings` table (type `Rating` in the rating service). -/
structure Rating where
  id : String
  user_id : String
  photo_id : String
  rating : ℚ
  created_at : ℕ
deriving DecidableEq

/-- Row of the `photos` table (type `Photo` in `photo-service.ts`). -/
structure Photo where
  id : String
  user_id : String
  title : String
  description : Option String
  image_url : String
  rating : ℚ
  votes_count : ℕ
  likes_count : ℕ
  comments_count : ℕ
  created_at : ℕ
  updated_at : ℕ
deriving DecidableEq

/-- Row of the `profiles` table (type `Profile` in `profile-service.ts`). -/
structure Profile where
  id : String
  username : String
  full_name : Option String
  bio : Option String
  avatar_url : Option String
  followers_count : ℕ
  following_count : ℕ
  created_at : ℕ
  updated_at : ℕ
deriving DecidableEq

/-- Row of the `followers` table (inserted by `followUser`). -/
structure FollowEdge where
  id : String
  follower_id : String
  followed_id : String
  created_at : ℕ
deriving DecidableEq

/-- Row of the `comments` table (type `Comment` in `photo-service.ts`). -/
structure Comment where
  id : String
  photo_id : String
  user_id : String
  content : String
  created_at : ℕ
deriving DecidableEq

/-- The `type` column of a notification row
(`'like' | 'comment' | 'follow' | 'rating'` in `notification-service.ts`). -/
inductive NotificationType where
  | like
  | comment
  | follow
  | rating
deriving DecidableEq

/-- Row of the `notifications` table (type `Notification` in
`notification-service.ts`). -/
structure Notification where
  id : String
  user_id : String
  sender_id : String
  type : NotificationType
  content : String
  is_read : Bool
  created_at : ℕ
deriving DecidableEq

/-- The whole relational store: one list of rows per table. -/
structure DB where
  profiles : List Profile
  photos : List Photo
  ratings : List Rating
  followers : List FollowEdge
  comments : List Comment
  notifications : List Notification
deriving DecidableEq

/-- The empty store. -/
def DB.empty : DB := ⟨[], [], [], [], [], []⟩

/-- Predicate used by `ratePhoto` / `getUserRating` to locate the caller's
rating row: `.eq('user_id', userId).eq('photo_id', photoId)`. -/
def ratingKey (userId photoId : String) (r : Rating) : Bool :=
  r.user_id == userId && r.photo_id == photoId

/-- `ratePhoto(userId, photoId, rating)` from the rating service
(`part_012` lines 12-79; the `part_011` variant, lines 30-76, differs only
in logging and in letting the store generate the inserted row id, which is
the `newId` parameter here).  It looks up an existing rating row for
`(userId, photoId)` via `maybeSingle()`; if found it updates that row's
`rating` and `created_at` by id, otherwise it inserts a fresh row.  It
touches no other table — in particular it never updates the photo row and
never creates a notification — and returns `success: true`. -/
def ratePhoto (db : DB) (userId photoId : String) (rating : ℚ)
    (newId : String) (now : ℕ) : DB × Bool :=
  match db.ratings.find? (ratingKey userId photoId) with
  | some existing =>
      ({ db with
          ratings := db.ratings.map fun r =>
            if r.id == existing.id then
              { r with rating := rating, created_at := now }
            else r },
       true)
  | none =>
      ({ db with
          ratings := db.ratings ++
            [⟨newId, userId, photoId, rating, now⟩] },
       true)

/-- `getUserRating(userId, photoId)` from the rating service (`part_012`
lines 82-105: `maybeSingle()` then `data ? data.rating : null`; the
`part_011` variant, lines 79-104, uses `single()` and maps the
PGRST116 no-row error to `null`, which is the same observable result). -/
def getUserRating (db : DB) (userId photoId : String) : Option ℚ :=
  (db.ratings.find? (ratingKey userId photoId)).map (·.rating)

/-- `followUser(followerId, followedId)` from `profile-service.ts` lines
158-202: rejects self-follow with `success: false`; if the edge already
exists it is a successful no-op; otherwise it inserts the edge row.  No
profile row (hence no `followers_count` / `following_count`) is touched,
and no notification is created. -/
def followUser (db : DB) (followerId followedId : String)
    (newId : String) (now : ℕ) : DB × Bool :=
  if followerId == followedId then
    (db, false)
  else
    match db.followers.find?
        (fun e => e.follower_id == followerId && e.followed_id == followedId) with
    | some _ => (db, true)
    | none =>
        ({ db with
            followers := db.followers ++
              [⟨newId, followerId, followedId, now⟩] },
         true)

/-- `createNotification(userId, senderId, type, content)` from
`notification-service.ts` lines 18-52: a self-notification
(`userId === senderId`) returns `success: true` without inserting
anything; otherwise a row with `is_read: false` is inserted. -/
def createNotification (db : DB) (userId senderId : String)
    (type : NotificationType) (content : String)
    (newId : String) (now : ℕ) : DB × Bool :=
  if userId == senderId then
    (db, true)
  else
    ({ db with
        notifications := db.notifications ++
          [⟨newId, userId, senderId, type, content, false, now⟩] },
     true)

/-- JavaScript `String.prototype.trim()`: strip leading and trailing
whitespace.  (`String.trim` from the Lean library computes the same string
but by byte-position recursion that the kernel cannot reduce, so the
character-list form is used.) -/
def jsTrim (s : String) : String :=
  String.mk (((s.data.dropWhile Char.isWhitespace).reverse.dropWhile
    Char.isWhitespace).reverse)

/-- `addComment(userId, photoId, content)` from `photo-service.ts` lines
487-527: if `content.trim()` is empty it fails (`success: false`, nothing
inserted); otherwise it inserts a comment row carrying the trimmed text
and returns the new `commentId`.  The photo row is never touched. -/
def addComment (db : DB) (userId photoId content : String)
    (newId : String) (now : ℕ) : DB × Option String :=
  if jsTrim content == "" then
    (db, none)
  else
    ({ db with
        comments := db.comments ++
          [⟨newId, photoId, userId, jsTrim content, now⟩] },
     some newId)

/-- `deleteComment(commentId, userId)` from `photo-service.ts` lines
530-567: fetches the comment by id with `single()` (a missing row throws
and is caught, yielding `success: false`); a requester other than the
author gets `success: false` with nothing changed; the author's request
deletes every comment row with that id.  The photo row is never touched. -/
def deleteComment (db : DB) (commentId userId : String) : DB × Bool :=
  match db.comments.find? (fun c => c.id == commentId) with
  | none => (db, false)
  | some c =>
      if c.user_id == userId then
        ({ db with
            comments := db.comments.filter fun x => !(x.id == commentId) },
         true)
      else
        (db, false)

/-- The photo insert performed by `uploadPhoto` (`photo-service.ts` lines
188-204, identically `part_012` lines 300-321): a fresh photo starts with
`rating: 0`, `votes_count: 0`, `likes_count: 0`, `comments_count: 0`. -/
def uploadPhoto (db : DB) (photoId userId title imageUrl : String)
    (now : ℕ) : DB :=
  { db with
      photos := db.photos ++
        [⟨photoId, userId, title, none, imageUrl, 0, 0, 0, 0, now, now⟩] }

/-- Lookup of a photo row by id (`getPhoto` in `photo-service.ts` lines
102-158, stripped of the profile join). -/
def getPhoto (db : DB) (photoId : String) : Option Photo :=
  db.photos.find? (fun ph => ph.id == photoId)

/-- Lookup of a profile row by id (`getProfile` in `profile-service.ts`
lines 17-51). -/
def getProfile (db : DB) (userId : String) : Option Profile :=
  db.profiles.find? (fun pr => pr.id == userId)

/-- All stored ratings for one photo. -/
def ratingsFor (db : DB) (photoId : String) : List Rating :=
  db.ratings.filter (fun r => r.photo_id == photoId)

/-- Modelled from the spec: the arithmetic mean of all stored ratings of a
photo, the value §4.1 says the photo's `rating` column must be recomputed
to on every `rate` call.  No function in the repository computes this on
the server side; it is defined here only to compare the spec's invariant
against what `ratePhoto` actually does. -/
def meanRating (db : DB) (photoId : String) : ℚ :=
  ((ratingsFor db photoId).map (·.rating)).sum / (ratingsFor db photoId).length

/-- Modelled from the spec: the number of distinct users who rated a photo,
the value §3 says `votes_count` must equal. -/
def distinctRaters (db : DB) (photoId : String) : ℕ :=
  ((ratingsFor db photoId).map (·.user_id)).dedup.length

/-- Number of follow edges from `a` to `b`. -/
def countEdges (db : DB) (a b : String) : ℕ :=
  db.followers.countP (fun e => e.follower_id == a && e.followed_id == b)

/-- At most one rating row per (user, photo) pair — the uniqueness the
spec's §3 requires of the `ratings` table. -/
def UniquePairs (l : List Rating) : Prop :=
  l.Pairwise fun r s => ¬(r.user_id = s.user_id ∧ r.photo_id = s.photo_id)

/-- A JavaScript `number` as it matters to the client-side aggregate
arithmetic: a finite value, one of the two infinities, or `NaN`. -/
inductive JsNum where
  | finite (q : ℚ)
  | posInf
  | negInf
  | nan
deriving DecidableEq

/-- Whether a JavaScript number is finite. -/
def JsNum.isFinite : JsNum → Bool
  | JsNum.finite _ => true
  | _ => false

/-- JavaScript division on numbers that are exactly representable: division
by zero yields `NaN` for a zero numerator and a signed infinity otherwise
(IEEE 754 semantics). -/
def jsDiv (x y : ℚ) : JsNum :=
  if y = 0 then
    if x = 0 then JsNum.nan
    else if 0 < x then JsNum.posInf
    else JsNum.negInf
  else JsNum.finite (x / y)

/-- `handleRatingChange(oldRating, newRating)` from the photo card
(`part_003` lines 106-108): the new displayed aggregate is
`(currentRating*votesCount + newRating - oldRating)/votesCount`, where
`currentRating` is the card's state and `votesCount` the card's prop. -/
def handleRatingChange (currentRating : ℚ) (votesCount : ℕ)
    (oldRating newRating : ℚ) : JsNum :=
  jsDiv (currentRating * (votesCount : ℚ) + newRating - oldRating) (votesCount : ℚ)

/-- Concrete store used in counterexamples: one photo `p1` owned by user
`b`, freshly uploaded (all counters zero), no other rows. -/
def photoDB : DB := uploadPhoto DB.empty "p1" "b" "after" "img" 0

/-- Concrete store used in counterexamples: profiles `a` and `b` with all
counters zero and no edges. -/
def twoProfilesDB : DB :=
  { DB.empty with
      profiles :=
        [⟨"a", "alice", none, none, none, 0, 0, 0, 0⟩,
         ⟨"b", "bob", none, none, none, 0, 0, 0, 0⟩] }

/-- Concrete store used in counterexamples: photo `p1` owned by `b` whose
`comments_count` is 1, and the single matching comment `c1` by author `a`. -/
def commentDB : DB :=
  { DB.empty with
      photos := [⟨"p1", "b", "after", none, "img", 0, 0, 0, 1, 0, 0⟩],
      comments := [⟨"c1", "p1", "a", "nice", 0⟩] }


theorem find?_of_map_pred (f : Rating → Rating) (q : Rating → Bool)
    (h : ∀ r, q (f r) = q r) (l : List Rating) :
    (l.map f).find? q = (l.find? q).map f := by
  have hq : q ∘ f = q := funext h
  rw [List.find?_map f, hq]

theorem ratePhoto_eq_insert (db : DB) (u p : String) (v : ℚ) (rid : String)
    (t : ℕ) (h : db.ratings.find? (ratingKey u p) = none) :
    ratePhoto db u p v rid t =
      ({ db with ratings := db.ratings ++ [⟨rid, u, p, v, t⟩] }, true) := by
  unfold ratePhoto
  rw [h]

theorem ratePhoto_eq_update (db : DB) (u p : String) (v : ℚ) (rid : String)
    (t : ℕ) (r0 : Rating) (h : db.ratings.find? (ratingKey u p) = some r0) :
    ratePhoto db u p v rid t =
      ({ db with ratings := db.ratings.map fun r =>
          if r.id == r0.id then { r with rating := v, created_at := t }
          else r },
       true) := by
  unfold ratePhoto
  rw [h]

theorem ratingKey_update_invariant (u p : String) (v : ℚ) (t : ℕ) (r0 r : Rating) :
    ratingKey u p (if r.id == r0.id then { r with rating := v, created_at := t } else r) =
      ratingKey u p r := by
  by_cases hid : r.id == r0.id <;> simp [ratingKey, hid]

theorem ratePhoto_run (db : DB) (u p : String) (v : ℚ) (rid : String) (t : ℕ) :
    (ratePhoto db u p v rid t).snd = true ∧
    (ratePhoto db u p v rid t).fst.photos = db.photos ∧
    (ratePhoto db u p v rid t).fst.notifications = db.notifications ∧
    getUserRating (ratePhoto db u p v rid t).fst u p = some v := by
  cases h : db.ratings.find? (ratingKey u p) with
  | none =>
      rw [ratePhoto_eq_insert db u p v rid t h]
      refine ⟨rfl, rfl, rfl, ?_⟩
      unfold getUserRating
      rw [List.find?_append, h]
      simp [ratingKey]
  | some r0 =>
      rw [ratePhoto_eq_update db u p v rid t r0 h]
      refine ⟨rfl, rfl, rfl, ?_⟩
      unfold getUserRating
      rw [find?_of_map_pred _ _ (ratingKey_update_invariant u p v t r0), h]
      simp


theorem followUser_self (db : DB) (x eid : String) (t : ℕ) :
    followUser db x x eid t = (db, false) := by
  simp [followUser]

theorem createNotification_self (db : DB) (x : String) (ty : NotificationType)
    (content eid : String) (t : ℕ) :
    createNotification db x x ty content eid t = (db, true) := by
  simp [createNotification]

theorem followUser_eq_insert (db : DB) (a b eid : String) (t : ℕ)
    (hab : (a == b) = false)
    (h : db.followers.find? (fun e => e.follower_id == a && e.followed_id == b) = none) :
    followUser db a b eid t =
      ({ db with followers := db.followers ++ [⟨eid, a, b, t⟩] }, true) := by
  simp only [followUser, hab, Bool.false_eq_true, if_false, h]

theorem followUser_eq_existing (db : DB) (a b eid : String) (t : ℕ)
    (e : FollowEdge) (hab : (a == b) = false)
    (h : db.followers.find? (fun x => x.follower_id == a && x.followed_id == b) = some e) :
    followUser db a b eid t = (db, true) := by
  simp only [followUser, hab, Bool.false_eq_true, if_false, h]

theorem followUser_twice_aux (db : DB) (a b e1 e2 : String) (t1 t2 : ℕ)
    (hab : a ≠ b) (h0 : countEdges db a b = 0) :
    followUser (followUser db a b e1 t1).fst a b e2 t2 =
      ({ db with followers := db.followers ++ [⟨e1, a, b, t1⟩] }, true) := by
  have habb : (a == b) = false := beq_eq_false_iff_ne.mpr hab
  simp only [countEdges] at h0
  have hnone : db.followers.find?
      (fun e => e.follower_id == a && e.followed_id == b) = none :=
    List.find?_eq_none.mpr (fun e he => List.countP_eq_zero.mp h0 e he)
  have h1 := followUser_eq_insert db a b e1 t1 habb hnone
  have hsome : (db.followers ++ [FollowEdge.mk e1 a b t1]).find?
      (fun e => e.follower_id == a && e.followed_id == b) = some (FollowEdge.mk e1 a b t1) := by
    rw [List.find?_append, hnone]
    simp
  rw [h1]
  exact followUser_eq_existing _ a b e2 t2 (FollowEdge.mk e1 a b t1) habb hsome


theorem uniquePairs_map_update (v : ℚ) (t : ℕ) (r0 : Rating)
    {l : List Rating} (h : UniquePairs l) :
    UniquePairs (l.map fun r =>
      if r.id == r0.id then { r with rating := v, created_at := t } else r) := by
  refine h.map _ ?_
  intro r s hrs
  by_cases h1 : r.id == r0.id <;> by_cases h2 : s.id == r0.id <;>
    simp only [h1, h2, if_true, if_false] <;> simpa using hrs

theorem uniquePairs_append_fresh (u p : String) (v : ℚ) (rid : String) (t : ℕ)
    {l : List Rating} (h : UniquePairs l)
    (hnone : l.find? (ratingKey u p) = none) :
    UniquePairs (l ++ [Rating.mk rid u p v t]) := by
  rw [UniquePairs, List.pairwise_append]
  refine ⟨h, List.pairwise_singleton _ _, ?_⟩
  intro x hx y hy
  have hy2 : y = Rating.mk rid u p v t := by simpa using hy
  subst hy2
  have hnot := List.find?_eq_none.mp hnone x hx
  simp only [ratingKey, Bool.and_eq_true, beq_iff_eq, not_and] at hnot
  intro hcon
  exact hnot hcon.1 hcon.2

theorem key_unique {l : List Rating} {u p : String}
    (huniq : UniquePairs l) {r s : Rating} (hr : r ∈ l) (hs : s ∈ l)
    (hkr : ratingKey u p r = true) (hks : ratingKey u p s = true) : r = s := by
  simp only [ratingKey, Bool.and_eq_true, beq_iff_eq] at hkr hks
  induction l with
  | nil => cases hr
  | cons a l ih =>
      rw [UniquePairs, List.pairwise_cons] at huniq
      rcases huniq with ⟨ha, hl⟩
      rcases List.mem_cons.mp hr with rfl | hr2
      · rcases List.mem_cons.mp hs with rfl | hs2
        · rfl
        · exact absurd ⟨hkr.1.trans hks.1.symm, hkr.2.trans hks.2.symm⟩ (ha s hs2)
      · rcases List.mem_cons.mp hs with rfl | hs2
        · exact absurd ⟨hks.1.trans hkr.1.symm, hks.2.trans hkr.2.symm⟩ (ha r hr2)
        · exact ih hl hr2 hs2



theorem getUserRating_eq_none_iff (db : DB) (u p : String) :
    getUserRating db u p = none ↔
      ∀ r ∈ db.ratings, ¬(r.user_id = u ∧ r.photo_id = p) := by
  rw [getUserRating, Option.map_eq_none', List.find?_eq_none]
  constructor
  · intro h r hr
    have := h r hr
    simpa [ratingKey] using this
  · intro h r hr
    have := h r hr
    simpa [ratingKey] using this

theorem getUserRating_some_of_mem (db : DB) (u p : String)
    (huniq : UniquePairs db.ratings) {r : Rating} (hr : r ∈ db.ratings)
    (hu : r.user_id = u) (hp : r.photo_id = p) :
    getUserRating db u p = some r.rating := by
  have hkr : ratingKey u p r = true := by simp [ratingKey, hu, hp]
  cases hf : db.ratings.find? (ratingKey u p) with
  | none =>
      exact absurd hkr (by simpa using List.find?_eq_none.mp hf r hr)
  | some s =>
      have hs := List.mem_of_find?_eq_some hf
      have hks := List.find?_some hf
      have : s = r := key_unique huniq hs hr hks hkr
      rw [getUserRating, hf, this]
      rfl

theorem addComment_eq_blank (db : DB) (u p text cid : String) (t : ℕ)
    (h : jsTrim text = "") :
    addComment db u p text cid t = (db, none) := by
  simp [addComment, h]

theorem addComment_eq_insert (db : DB) (u p text cid : String) (t : ℕ)
    (h : jsTrim text ≠ "") :
    addComment db u p text cid t =
      ({ db with comments := db.comments ++ [Comment.mk cid p u (jsTrim text) t] },
       some cid) := by
  have hb : (jsTrim text == "") = false := beq_eq_false_iff_ne.mpr h
  simp [addComment, hb]

theorem deleteComment_eq_missing (db : DB) (cid uid : String)
    (h : db.comments.find? (fun x => x.id == cid) = none) :
    deleteComment db cid uid = (db, false) := by
  unfold deleteComment
  rw [h]

theorem deleteComment_eq_wrong_user (db : DB) (cid uid : String) (c : Comment)
    (h : db.comments.find? (fun x => x.id == cid) = some c)
    (hu : c.user_id ≠ uid) :
    deleteComment db cid uid = (db, false) := by
  have hb : (c.user_id == uid) = false := beq_eq_false_iff_ne.mpr hu
  unfold deleteComment
  rw [h]
  simp [hb]

theorem deleteComment_eq_delete (db : DB) (cid uid : String) (c : Comment)
    (h : db.comments.find? (fun x => x.id == cid) = some c)
    (hu : c.user_id = uid) :
    deleteComment db cid uid =
      ({ db with comments := db.comments.filter fun x => !(x.id == cid) }, true) := by
  unfold deleteComment
  rw [h]
  simp [hu]

/-- C1 counterexample: user `a` rates the freshly uploaded photo `p1`
(owned by `b`) a 7.  The call succeeds and the stored ratings then have
mean 7 from exactly 1 distinct rater, but the photo row still carries
`rating = 0` and `votes_count = 0`: `ratePhoto` performs no recomputation
of the photo aggregate at all. -/
theorem ratePhoto_aggregate_cex :
    (ratePhoto photoDB "a" "p1" 7 "r1" 1).snd = true ∧
    meanRating (ratePhoto photoDB "a" "p1" 7 "r1" 1).fst "p1" = 7 ∧
    distinctRaters (ratePhoto photoDB "a" "p1" 7 "r1" 1).fst "p1" = 1 ∧
    (getPhoto (ratePhoto photoDB "a" "p1" 7 "r1" 1).fst "p1").map Photo.rating ≠
      some (meanRating (ratePhoto photoDB "a" "p1" 7 "r1" 1).fst "p1") ∧
    (getPhoto (ratePhoto photoDB "a" "p1" 7 "r1" 1).fst "p1").map Photo.votes_count ≠
      some (distinctRaters (ratePhoto photoDB "a" "p1" 7 "r1" 1).fst "p1") := by
  have hmean : meanRating (ratePhoto photoDB "a" "p1" 7 "r1" 1).fst "p1" = 7 := by
    norm_num [meanRating, ratingsFor, ratePhoto, photoDB, uploadPhoto, DB.empty,
      ratingKey]
  have hd : distinctRaters (ratePhoto photoDB "a" "p1" 7 "r1" 1).fst "p1" = 1 := by
    decide
  have hph : (getPhoto (ratePhoto photoDB "a" "p1" 7 "r1" 1).fst "p1").map
      Photo.rating = some 0 := by decide
  have hvc : (getPhoto (ratePhoto photoDB "a" "p1" 7 "r1" 1).fst "p1").map
      Photo.votes_count = some 0 := by decide
  refine ⟨by decide, hmean, hd, ?_, ?_⟩
  · rw [hmean, hph]
    simp only [ne_eq, Option.some.injEq]
    norm_num
  · rw [hd, hvc]
    decide

/-- C1 (amended): every `ratePhoto` call succeeds and stores the caller's
latest value as that user's rating of the photo, but the photo rows are
left completely untouched — the photo's `rating` is never recomputed as
any mean and `votes_count` is never updated. -/
theorem ratePhoto_photo_row_unchanged (db : DB) (u p : String) (v : ℚ)
    (rid : String) (t : ℕ) :
    (ratePhoto db u p v rid t).snd = true ∧
    (ratePhoto db u p v rid t).fst.photos = db.photos ∧
    getUserRating (ratePhoto db u p v rid t).fst u p = some v := by
  obtain ⟨h1, h2, h3, h4⟩ := ratePhoto_run db u p v rid t
  exact ⟨h1, h2, h4⟩

/-- C2 counterexample: `a` and `b` start with all counters 0 and no edges;
calling `followUser(a, b)` twice leaves exactly one edge, but `b`'s
`followers_count` and `a`'s `following_count` are still 0, not 1 —
`followUser` performs no counter update at all. -/
theorem followUser_counters_cex :
    (getProfile twoProfilesDB "b").map Profile.followers_count = some 0 ∧
    (getProfile twoProfilesDB "a").map Profile.following_count = some 0 ∧
    (followUser (followUser twoProfilesDB "a" "b" "e1" 1).fst "a" "b" "e2" 2).snd =
      true ∧
    countEdges (followUser (followUser twoProfilesDB "a" "b" "e1" 1).fst
      "a" "b" "e2" 2).fst "a" "b" = 1 ∧
    (getProfile (followUser (followUser twoProfilesDB "a" "b" "e1" 1).fst
      "a" "b" "e2" 2).fst "b").map Profile.followers_count ≠ some 1 ∧
    (getProfile (followUser (followUser twoProfilesDB "a" "b" "e1" 1).fst
      "a" "b" "e2" 2).fst "a").map Profile.following_count ≠ some 1 := by
  exact ⟨by decide, by decide, by decide, by decide, by decide, by decide⟩

/-- C2 (amended): with no prior edge, calling `followUser(a, b)` twice in
a row succeeds and leaves exactly one follow edge from `a` to `b` (the
second call is an idempotent no-op), but the profile rows are unchanged:
`followUser` never increments `followers_count` or `following_count`. -/
theorem followUser_twice_one_edge (db : DB) (a b e1 e2 : String) (t1 t2 : ℕ)
    (hab : a ≠ b) (h0 : countEdges db a b = 0) :
    (followUser (followUser db a b e1 t1).fst a b e2 t2).snd = true ∧
    countEdges (followUser (followUser db a b e1 t1).fst a b e2 t2).fst a b = 1 ∧
    (followUser (followUser db a b e1 t1).fst a b e2 t2).fst.profiles =
      db.profiles := by
  rw [followUser_twice_aux db a b e1 e2 t1 t2 hab h0]
  refine ⟨rfl, ?_, rfl⟩
  simp only [countEdges] at h0 ⊢
  rw [List.countP_append, h0]
  simp [List.countP_cons]

/-- C2 witness: the amended statement applied to the concrete two-profile
store. -/
theorem followUser_twice_one_edge_witness :
    (followUser (followUser twoProfilesDB "a" "b" "e1" 1).fst "a" "b" "e2" 2).snd =
      true ∧
    countEdges (followUser (followUser twoProfilesDB "a" "b" "e1" 1).fst
      "a" "b" "e2" 2).fst "a" "b" = 1 ∧
    (followUser (followUser twoProfilesDB "a" "b" "e1" 1).fst
      "a" "b" "e2" 2).fst.profiles = twoProfilesDB.profiles :=
  followUser_twice_one_edge twoProfilesDB "a" "b" "e1" "e2" 1 2
    (by decide) (by decide)

/-- C3 counterexample: 11 is outside [1, 10], yet `ratePhoto` succeeds and
stores the value 11 — there is no range validation and no failure. -/
theorem ratePhoto_out_of_range_cex :
    ¬((1:ℚ) ≤ 11 ∧ (11:ℚ) ≤ 10) ∧
    (ratePhoto photoDB "a" "p1" 11 "r1" 1).snd = true ∧
    getUserRating (ratePhoto photoDB "a" "p1" 11 "r1" 1).fst "a" "p1" =
      some 11 ∧
    (ratePhoto photoDB "a" "p1" 11 "r1" 1).fst.ratings.length = 1 := by
  exact ⟨by norm_num, by decide, by decide, by decide⟩

/-- C3 (amended): `ratePhoto` performs no validation of the rating value:
for every rational value, inside or outside [1, 10], the call succeeds and
the value is stored as the caller's rating. -/
theorem ratePhoto_no_validation (db : DB) (u p : String) (v : ℚ)
    (rid : String) (t : ℕ) :
    (ratePhoto db u p v rid t).snd = true ∧
    getUserRating (ratePhoto db u p v rid t).fst u p = some v := by
  obtain ⟨h1, h2, h3, h4⟩ := ratePhoto_run db u p v rid t
  exact ⟨h1, h4⟩

/-- C4 counterexample: `a` rates `p1`, which is owned by `b` (a different
user); the call succeeds but the notifications table stays empty — no
`rating` notification is enqueued for the owner. -/
theorem ratePhoto_notification_cex :
    (getPhoto photoDB "p1").map Photo.user_id = some "b" ∧
    ("a" : String) ≠ "b" ∧
    (ratePhoto photoDB "a" "p1" 7 "r1" 1).snd = true ∧
    (ratePhoto photoDB "a" "p1" 7 "r1" 1).fst.notifications = [] := by
  exact ⟨by decide, by decide, by decide, by decide⟩

/-- C4 (amended): `ratePhoto` never creates any notification: the
notifications table is unchanged by every call, whether or not the rater
owns the photo. -/
theorem ratePhoto_never_notifies (db : DB) (u p : String) (v : ℚ)
    (rid : String) (t : ℕ) :
    (ratePhoto db u p v rid t).fst.notifications = db.notifications :=
  (ratePhoto_run db u p v rid t).2.2.1


/-- C5 counterexample: adding the non-blank comment "hi" to photo `p1`
succeeds, but the photo's `comments_count` stays 0 instead of becoming 1 —
`addComment` never increments the counter (and returns only the new
comment id, with no denormalized author snapshot). -/
theorem addComment_count_cex :
    (addComment photoDB "a" "p1" "hi" "c1" 1).snd = some "c1" ∧
    (getPhoto photoDB "p1").map Photo.comments_count = some 0 ∧
    (getPhoto (addComment photoDB "a" "p1" "hi" "c1" 1).fst "p1").map
      Photo.comments_count ≠ some 1 := by
  exact ⟨by decide, by decide, by decide⟩

/-- C5 (amended): `addComment` with empty or whitespace-only text fails
and changes nothing; with non-blank text it appends a comment row carrying
the trimmed text and returns the new comment's id.  In both cases the
photo rows are untouched: `comments_count` is never incremented, and only
the id is returned, not the comment with an author snapshot. -/
theorem addComment_validates_but_no_counter (db : DB)
    (u p text cid : String) (t : ℕ) :
    (addComment db u p text cid t).fst.photos = db.photos ∧
    (jsTrim text = "" → addComment db u p text cid t = (db, none)) ∧
    (jsTrim text ≠ "" →
      (addComment db u p text cid t).snd = some cid ∧
      (addComment db u p text cid t).fst.comments =
        db.comments ++ [Comment.mk cid p u (jsTrim text) t]) := by
  refine ⟨?_, fun h => addComment_eq_blank db u p text cid t h, fun h => ?_⟩
  · by_cases h : jsTrim text = ""
    · rw [addComment_eq_blank db u p text cid t h]
    · rw [addComment_eq_insert db u p text cid t h]
  · rw [addComment_eq_insert db u p text cid t h]
    exact ⟨rfl, rfl⟩

/-- C5 witness: the amended statement applied on both branches — a
whitespace-only text is rejected with nothing stored, and "hi" is stored
and acknowledged with its id. -/
theorem addComment_validates_but_no_counter_witness :
    (jsTrim " " = "" ∧ addComment photoDB "a" "p1" " " "c9" 2 = (photoDB, none)) ∧
    (jsTrim "hi" ≠ "" ∧ (addComment photoDB "a" "p1" "hi" "c1" 1).snd = some "c1") :=
  ⟨⟨by decide,
    (addComment_validates_but_no_counter photoDB "a" "p1" " " "c9" 2).2.1
      (by decide)⟩,
   ⟨by decide,
    ((addComment_validates_but_no_counter photoDB "a" "p1" "hi" "c1" 1).2.2
      (by decide)).1⟩⟩

/-- C6 counterexample: author `a` deletes their own comment `c1` on photo
`p1` (whose `comments_count` is 1).  The deletion succeeds and the comment
row is gone, but `comments_count` is still 1 instead of 0 — `deleteComment`
never decrements the counter. -/
theorem deleteComment_count_cex :
    (deleteComment commentDB "c1" "a").snd = true ∧
    (deleteComment commentDB "c1" "a").fst.comments = [] ∧
    (getPhoto commentDB "p1").map Photo.comments_count = some 1 ∧
    (getPhoto (deleteComment commentDB "c1" "a").fst "p1").map
      Photo.comments_count ≠ some 0 := by
  exact ⟨by decide, by decide, by decide, by decide⟩

/-- C6 (amended): `deleteComment` by anyone other than the comment's
author fails and changes nothing; by the author it deletes the comment
row.  In both cases the photo rows are untouched: `comments_count` is
never decremented. -/
theorem deleteComment_auth_but_no_counter (db : DB) (cid uid : String) :
    (deleteComment db cid uid).fst.photos = db.photos ∧
    (∀ c, db.comments.find? (fun x => x.id == cid) = some c → c.user_id ≠ uid →
      deleteComment db cid uid = (db, false)) ∧
    (∀ c, db.comments.find? (fun x => x.id == cid) = some c → c.user_id = uid →
      (deleteComment db cid uid).snd = true ∧
      (deleteComment db cid uid).fst.comments =
        db.comments.filter fun x => !(x.id == cid)) := by
  refine ⟨?_, fun c h hu => deleteComment_eq_wrong_user db cid uid c h hu,
    fun c h hu => ?_⟩
  · cases hf : db.comments.find? (fun x => x.id == cid) with
    | none => rw [deleteComment_eq_missing db cid uid hf]
    | some c =>
        by_cases hu : c.user_id = uid
        · rw [deleteComment_eq_delete db cid uid c hf hu]
        · rw [deleteComment_eq_wrong_user db cid uid c hf hu]
  · rw [deleteComment_eq_delete db cid uid c h hu]
    exact ⟨rfl, rfl⟩

/-- C6 witness: the amended statement applied on both branches — the
stranger `z` cannot delete `a`'s comment, while `a` can. -/
theorem deleteComment_auth_but_no_counter_witness :
    deleteComment commentDB "c1" "z" = (commentDB, false) ∧
    (deleteComment commentDB "c1" "a").snd = true :=
  ⟨(deleteComment_auth_but_no_counter commentDB "c1" "z").2.1
      (Comment.mk "c1" "p1" "a" "nice" 0) (by decide) (by decide),
   ((deleteComment_auth_but_no_counter commentDB "c1" "a").2.2
      (Comment.mk "c1" "p1" "a" "nice" 0) (by decide) rfl).1⟩


/-- C7: `ratePhoto` has upsert semantics — it preserves uniqueness of the
(user, photo) pair in the ratings table, and when a rating by the same
user on the same photo already exists, the call keeps the table's length
(no second entity) and the existing row reappears with its value replaced
and its timestamp refreshed. -/
theorem ratePhoto_upsert (db : DB) (u p : String) (v : ℚ) (rid : String)
    (t : ℕ) :
    (UniquePairs db.ratings → UniquePairs (ratePhoto db u p v rid t).fst.ratings) ∧
    (∀ r0, db.ratings.find? (ratingKey u p) = some r0 →
      (ratePhoto db u p v rid t).fst.ratings.length = db.ratings.length ∧
      (ratePhoto db u p v rid t).fst.ratings.find? (ratingKey u p) =
        some { r0 with rating := v, created_at := t }) := by
  constructor
  · intro huniq
    cases h : db.ratings.find? (ratingKey u p) with
    | none =>
        rw [ratePhoto_eq_insert db u p v rid t h]
        exact uniquePairs_append_fresh u p v rid t huniq h
    | some r0 =>
        rw [ratePhoto_eq_update db u p v rid t r0 h]
        exact uniquePairs_map_update v t r0 huniq
  · intro r0 h
    rw [ratePhoto_eq_update db u p v rid t r0 h]
    refine ⟨by simp, ?_⟩
    rw [find?_of_map_pred _ _ (ratingKey_update_invariant u p v t r0), h]
    simp

/-- C7 witness: after `a` rates `p1` a 7, re-rating it a 9 keeps a single
rating row, now carrying value 9 and the fresh timestamp, and the
one-row table is (trivially) unique per (user, photo) pair. -/
theorem ratePhoto_upsert_witness :
    ((ratePhoto (ratePhoto photoDB "a" "p1" 7 "r1" 1).fst
        "a" "p1" 9 "r2" 2).fst.ratings.length =
      (ratePhoto photoDB "a" "p1" 7 "r1" 1).fst.ratings.length ∧
     (ratePhoto (ratePhoto photoDB "a" "p1" 7 "r1" 1).fst
        "a" "p1" 9 "r2" 2).fst.ratings.find? (ratingKey "a" "p1") =
      some (Rating.mk "r1" "a" "p1" 9 2)) ∧
    UniquePairs (ratePhoto photoDB "a" "p1" 7 "r1" 1).fst.ratings :=
  ⟨(ratePhoto_upsert (ratePhoto photoDB "a" "p1" 7 "r1" 1).fst
      "a" "p1" 9 "r2" 2).2 (Rating.mk "r1" "a" "p1" 7 1) (by decide),
   (ratePhoto_upsert photoDB "a" "p1" 7 "r1" 1).1 (List.Pairwise.nil)⟩

/-- C8: a self-follow is rejected (`success: false`) and a
self-notification is accepted as a no-op (`success: true`); neither call
changes the store in any way — no edge, no counter change, no
notification row. -/
theorem self_follow_self_notify_noop (db : DB) (x eid : String) (t : ℕ)
    (ty : NotificationType) (content nid : String) (t2 : ℕ) :
    followUser db x x eid t = (db, false) ∧
    createNotification db x x ty content nid t2 = (db, true) :=
  ⟨followUser_self db x eid t, createNotification_self db x ty content nid t2⟩

/-- C9: `getUserRating` returns `none` exactly when the user has no stored
rating for the photo; any returned number is the value of a stored rating
row of that user for that photo (so zero can only come back if a zero was
actually stored, never as an absence sentinel); and under per-(user, photo)
uniqueness the stored row's value is what is returned. -/
theorem getUserRating_absence (db : DB) (u p : String) :
    (getUserRating db u p = none ↔
      ∀ r ∈ db.ratings, ¬(r.user_id = u ∧ r.photo_id = p)) ∧
    (∀ q, getUserRating db u p = some q →
      ∃ r ∈ db.ratings, r.user_id = u ∧ r.photo_id = p ∧ r.rating = q) ∧
    (UniquePairs db.ratings → ∀ r ∈ db.ratings, r.user_id = u →
      r.photo_id = p → getUserRating db u p = some r.rating) := by
  refine ⟨getUserRating_eq_none_iff db u p, ?_,
    fun hu r hr h1 h2 => getUserRating_some_of_mem db u p hu hr h1 h2⟩
  intro q hq
  rw [getUserRating] at hq
  rcases Option.map_eq_some'.mp hq with ⟨r, hfind, hrat⟩
  have hmem := List.mem_of_find?_eq_some hfind
  have hkey := List.find?_some hfind
  simp only [ratingKey, Bool.and_eq_true, beq_iff_eq] at hkey
  exact ⟨r, hmem, hkey.1, hkey.2, hrat⟩

/-- C9 witness: on the fresh store `a` has no rating for `p1` and the
result is `none`, not 0; after rating it a 7 the result is `some 7`. -/
theorem getUserRating_absence_witness :
    getUserRating photoDB "a" "p1" = none ∧
    getUserRating (ratePhoto photoDB "a" "p1" 7 "r1" 1).fst "a" "p1" =
      some 7 :=
  ⟨(getUserRating_absence photoDB "a" "p1").1.mpr (by decide),
   (getUserRating_absence (ratePhoto photoDB "a" "p1" 7 "r1" 1).fst
      "a" "p1").2.2 (List.pairwise_singleton _ _)
      (Rating.mk "r1" "a" "p1" 7 1) (by decide) rfl rfl⟩

/-- C10: with `votesCount = 0` (an unrated photo card) the client-side
aggregate update `(currentRating*votesCount + newRating - oldRating) /
votesCount` divides by zero, so the displayed aggregate after the first
rating on such a card is never a finite number (it is `Infinity`,
`-Infinity` or `NaN`). -/
theorem handleRatingChange_zero_votes_not_finite (c oldR newR : ℚ) :
    (handleRatingChange c 0 oldR newR).isFinite = false := by
  unfold handleRatingChange jsDiv
  norm_num
  split
  · rfl
  · split <;> rfl

end FitRate
